import Mathlib

/-!
Shallow embedding of `logger.go` (package `logger`), a small leveled-logging
utility.  Go's mutable state and I/O are modelled by explicit event traces:
each public operation is a pure Lean function from the `Logger` value and its
arguments to the list of observable events (lock acquisition/release, a write
of a rendered message to a destination, a close call on an owned resource, a
diagnostic line, process exit).  Machine integers (`type Level int`, the flag
bitset) are modelled as `Int` / `Nat`.
-/

/-- Go: `type Level int`.  The constants `Debug`..`Fatal` are `iota` values
0..4, but the type itself admits every machine integer. -/
abbrev Level := Int

def Level.Debug : Level := 0

def Level.Info : Level := 1

def Level.Warn : Level := 2

def Level.Error : Level := 3

def Level.Fatal : Level := 4

/-- Go: the per-severity tag constants `tagDebug` .. `tagFatal`. -/
def tagDebug : String := "DEBUG: "

def tagInfo : String := "INFO : "

def tagWarn : String := "WARN : "

def tagError : String := "ERROR: "

def tagFatal : String := "FATAL: "

/-- Flag constants of Go's standard `log` package (`log.Ldate = 1`,
`log.Ltime = 2`, `log.Lmicroseconds = 4`, `log.Llongfile = 8`,
`log.Lshortfile = 16`), which `logger.go` combines with `|`. -/
def Ldate : Nat := 1

def Ltime : Nat := 2

def Lmicroseconds : Nat := 4

def Llongfile : Nat := 8

def Lshortfile : Nat := 16

/-- Go: `const defaultLogFlags = log.Ldate | log.Lmicroseconds | log.Lshortfile`. -/
def defaultLogFlags : Nat := Ldate ||| Lmicroseconds ||| Lshortfile

/-- A writer supplied by the caller through `WithInfoLogFile` /
`WithErrorLogFile` (`io.LogWriter` in Go).  `closable` records whether the
dynamic type also implements `io.Closer` (the `output.(io.Closer)` type
assertion in `New`); `closeFails` records whether its `Close` method
returns a non-nil error when invoked. -/
structure LogWriter where
  id : Nat
  closable : Bool
  closeFails : Bool
deriving DecidableEq, Repr

/-- A destination an underlying write can reach: the process console streams
`os.Stdout` / `os.Stderr`, or a caller-configured writer. -/
inductive Dest where
  | stdout
  | stderr
  | writer (w : LogWriter)
deriving DecidableEq, Repr

/-- One `*log.Logger` as created by `log.New(io.MultiWriter(dests...), tag,
flags)`: a fan-out destination list, a fixed tag put in front of every line,
and the formatting flag bitset. -/
structure Sink where
  dests : List Dest
  tag : String
  flags : Nat
deriving DecidableEq, Repr

/-- Go: `type Logger struct` — five per-severity sinks, the minimum level,
and the owned closables (`closers []io.Closer`).  The `sync.Mutex` has no
value-level content; lock operations appear in event traces. -/
structure Logger where
  debugLog : Sink
  infoLog : Sink
  warnLog : Sink
  errorLog : Sink
  fatalLog : Sink
  level : Level
  closers : List LogWriter
deriving DecidableEq, Repr

/-- Observable events of an operation, in program order. -/
inductive LogEvent where
  /-- Go `l.mu.Lock()` -/
  | lock
  /-- Go `l.mu.Unlock()` -/
  | unlock
  /-- the sink writes the message `text` tagged `tag` to destination `d`,
  with caller-location calldepth `cd` passed to `log.Logger.Output` -/
  | output (d : Dest) (cd : Int) (tag : String) (text : String)
  /-- Go `c.Close()` is invoked on an owned closable -/
  | closeCall (c : LogWriter)
  /-- the `fmt.Fprintf(os.Stderr, "Failed to close log %v: %v\n", ...)`
  diagnostic emitted when a close fails -/
  | closeDiag (c : LogWriter)
  /-- Go `os.Exit(code)` -/
  | exit (code : Nat)
deriving DecidableEq, Repr

/-- Go: `type options struct` — the mutable record the option functions
edit.  `io.LogWriter` fields start as `nil`, modelled by `Option LogWriter`. -/
structure options where
  level : Level
  infoLogFile : Option LogWriter
  errorLogFile : Option LogWriter
  logFlags : Nat
deriving DecidableEq, Repr

/-- Go: an `Option` is anything with `apply(o *options)`; every value the
package itself produces is an `OptionFunc`, i.e. a function mutating the
options record. -/
abbrev LogOption := options → options

/-- Go: `func WithLevel(level Level) Option`. -/
def WithLevel (level : Level) : LogOption :=
  fun o => { o with level := level }

/-- Go: `func WithInfoLogFile(logFile io.LogWriter) Option`. -/
def WithInfoLogFile (logFile : LogWriter) : LogOption :=
  fun o => { o with infoLogFile := some logFile }

/-- Go: `func WithErrorLogFile(logFile io.LogWriter) Option`. -/
def WithErrorLogFile (logFile : LogWriter) : LogOption :=
  fun o => { o with errorLogFile := some logFile }

/-- Go: `func WithLogFlags(flags int) Option`. -/
def WithLogFlags (flags : Nat) : LogOption :=
  fun o => { o with logFlags := flags }

/-- The option-application loop of `New`: `for _, opt := range opts {
opt.apply(&o) }`. -/
def applyOpts (o : options) (opts : List LogOption) : options :=
  opts.foldl (fun a f => f a) o

/-- Helper for the conditional appends in `New`
(`if o.infoLogFile != nil { iLogs = append(iLogs, o.infoLogFile) }`). -/
def optDest : Option LogWriter → List Dest
  | some w => [Dest.writer w]
  | none => []

def optOutputs : Option LogWriter → List LogWriter
  | some w => [w]
  | none => []

/-- Go: `func New(opts ...Option) *Logger`.  `defaultLevel` is the value of
the package-global `var DefaultLevel` at the moment of the call (Go reads it
once, when initialising `o.level`). -/
def New (defaultLevel : Level) (opts : List LogOption) : Logger :=
  let o := applyOpts { level := defaultLevel, infoLogFile := none,
                       errorLogFile := none, logFlags := defaultLogFlags } opts
  let iLogs : List Dest := Dest.stdout :: optDest o.infoLogFile
  let eLogs : List Dest := Dest.stderr :: optDest o.errorLogFile
  let outputs : List LogWriter := optOutputs o.infoLogFile ++ optOutputs o.errorLogFile
  { debugLog := { dests := iLogs, tag := tagDebug, flags := o.logFlags }
    infoLog := { dests := iLogs, tag := tagInfo, flags := o.logFlags }
    warnLog := { dests := eLogs, tag := tagWarn, flags := o.logFlags }
    errorLog := { dests := eLogs, tag := tagError, flags := o.logFlags }
    fatalLog := { dests := eLogs, tag := tagFatal, flags := o.logFlags }
    level := o.level
    closers := outputs.filter (fun w => w.closable) }

/-- One `log.Logger.Output(cd, text)` call: the `io.MultiWriter` writes the
rendered line to each destination in order. -/
def Sink.outputEvents (s : Sink) (cd : Int) (text : String) : List LogEvent :=
  s.dests.map (fun d => LogEvent.output d cd s.tag text)

/-- The `switch level` body of `Logger.log` (between `Lock` and `Unlock`):
each case calls `Output(3+depth, text)` on that severity's sink; a level
outside the five named constants matches no case and writes nothing. -/
def Logger.switchEvents (l : Logger) (level : Level) (depth : Int)
    (text : String) : List LogEvent :=
  if level = Level.Debug then l.debugLog.outputEvents (3 + depth) text
  else if level = Level.Info then l.infoLog.outputEvents (3 + depth) text
  else if level = Level.Warn then l.warnLog.outputEvents (3 + depth) text
  else if level = Level.Error then l.errorLog.outputEvents (3 + depth) text
  else if level = Level.Fatal then l.fatalLog.outputEvents (3 + depth) text
  else []

/-- Go: `func (l *Logger) log(level Level, depth int, text string)`.
Returns the event trace of the call: empty when `level < l.level`
(the early `return` before the lock), otherwise lock, the switch body,
unlock. -/
def Logger.logTrace (l : Logger) (level : Level) (depth : Int)
    (text : String) : List LogEvent :=
  if level < l.level then []
  else LogEvent.lock :: (l.switchEvents level depth text ++ [LogEvent.unlock])

/-- The `for _, c := range l.closers` loop of `Close`: events of the loop
and the final value of `hasErr`. -/
def closeLoop : List LogWriter → List LogEvent × Bool
  | [] => ([], false)
  | c :: rest =>
      let r := closeLoop rest
      (LogEvent.closeCall c ::
        ((if c.closeFails then [LogEvent.closeDiag c] else []) ++ r.1),
       c.closeFails || r.2)

/-- Go: `func (l *Logger) Close() error` — the event trace: lock, the close
loop over every owned closable, unlock. -/
def Logger.closeTrace (l : Logger) : List LogEvent :=
  LogEvent.lock :: ((closeLoop l.closers).1 ++ [LogEvent.unlock])

/-- The `error` result of `Close`: `errors.New("failed to close some logs")`
iff `hasErr` was set by some failing close, else `nil`. -/
def Logger.closeErr (l : Logger) : Option String :=
  if (closeLoop l.closers).2 then some "failed to close some logs" else none

/-- The `Logger` value after `Close` returns.  The body of `Close` assigns
to no field of `l` (it only calls `Close` on the listed closers), so the
post-state equals the pre-state field for field. -/
def Logger.closePost (l : Logger) : Logger :=
  { debugLog := l.debugLog, infoLog := l.infoLog, warnLog := l.warnLog,
    errorLog := l.errorLog, fatalLog := l.fatalLog,
    level := l.level, closers := l.closers }

/-- The `Logger` value after `log` returns: `log` assigns to no field. -/
def Logger.logPost (l : Logger) (_level : Level) (_depth : Int)
    (_text : String) : Logger :=
  { debugLog := l.debugLog, infoLog := l.infoLog, warnLog := l.warnLog,
    errorLog := l.errorLog, fatalLog := l.fatalLog,
    level := l.level, closers := l.closers }

/-- A Go value passed through `v ...interface{}`, restricted to strings and
integers (enough to exercise `fmt`'s documented separator rules, which
depend only on whether an operand is a string). -/
inductive GoValue where
  | str (s : String)
  | int (n : Int)
deriving DecidableEq, Repr

/-- The default `%v` rendering of a value. -/
def GoValue.render : GoValue → String
  | GoValue.str s => s
  | GoValue.int n => toString n

def GoValue.isStr : GoValue → Bool
  | GoValue.str _ => true
  | GoValue.int _ => false

/-- Go stdlib `fmt.Sprint`: operands are rendered in their default formats
and concatenated; a space is inserted between two adjacent operands only
when neither of them is a string. -/
def sprint : List GoValue → String
  | [] => ""
  | [v] => v.render
  | v :: w :: rest =>
      v.render ++ (if v.isStr || w.isStr then "" else " ") ++ sprint (w :: rest)

/-- Go stdlib `fmt.Sprintln`: operands rendered in their default formats, a
space between every pair of adjacent operands, and a trailing newline. -/
def sprintln : List GoValue → String
  | [] => "\n"
  | [v] => v.render ++ "\n"
  | v :: w :: rest => v.render ++ " " ++ sprintln (w :: rest)

/-- Go stdlib `fmt.Sprintf` restricted to the verbs `%v`, `%s`, `%d` and the
escape `%%` over string/integer operands: literal characters are copied,
each verb consumes the next operand and substitutes its rendering, and a
verb with no operand left yields fmt's `%!x(MISSING)` text. -/
def sprintfChars : List Char → List GoValue → String
  | [], _ => ""
  | ['%'], _ => "%"
  | '%' :: c :: rest, vs =>
      if c = '%' then "%" ++ sprintfChars rest vs
      else if c = 'v' || c = 's' || c = 'd' then
        match vs with
        | v :: vs2 => v.render ++ sprintfChars rest vs2
        | [] => "%!" ++ String.singleton c ++ "(MISSING)" ++ sprintfChars rest []
      else "%" ++ String.singleton c ++ sprintfChars rest vs
  | c :: rest, vs => String.singleton c ++ sprintfChars rest vs

def sprintf (format : String) (vs : List GoValue) : String :=
  sprintfChars format.toList vs

/-- Go: `func (l *Logger) Debug(v ...interface{})` —
`l.log(Debug, 0, fmt.Sprint(v...))`. -/
def Logger.Debug (l : Logger) (v : List GoValue) : List LogEvent :=
  l.logTrace Level.Debug 0 (sprint v)

/-- Go: `func (l *Logger) DebugDepth(depth int, v ...interface{})`. -/
def Logger.DebugDepth (l : Logger) (depth : Int) (v : List GoValue) : List LogEvent :=
  l.logTrace Level.Debug depth (sprint v)

/-- Go: `func (l *Logger) Debugln(v ...interface{})`. -/
def Logger.Debugln (l : Logger) (v : List GoValue) : List LogEvent :=
  l.logTrace Level.Debug 0 (sprintln v)

/-- Go: `func (l *Logger) Debugf(format string, v ...interface{})`. -/
def Logger.Debugf (l : Logger) (format : String) (v : List GoValue) : List LogEvent :=
  l.logTrace Level.Debug 0 (sprintf format v)

/-- Go: `func (l *Logger) Info(v ...interface{})`. -/
def Logger.Info (l : Logger) (v : List GoValue) : List LogEvent :=
  l.logTrace Level.Info 0 (sprint v)

/-- Go: `func (l *Logger) InfoDepth(depth int, v ...interface{})`. -/
def Logger.InfoDepth (l : Logger) (depth : Int) (v : List GoValue) : List LogEvent :=
  l.logTrace Level.Info depth (sprint v)

/-- Go: `func (l *Logger) Infoln(v ...interface{})`. -/
def Logger.Infoln (l : Logger) (v : List GoValue) : List LogEvent :=
  l.logTrace Level.Info 0 (sprintln v)

/-- Go: `func (l *Logger) Infof(format string, v ...interface{})`. -/
def Logger.Infof (l : Logger) (format : String) (v : List GoValue) : List LogEvent :=
  l.logTrace Level.Info 0 (sprintf format v)

/-- Go: `func (l *Logger) Warn(v ...interface{})`. -/
def Logger.Warn (l : Logger) (v : List GoValue) : List LogEvent :=
  l.logTrace Level.Warn 0 (sprint v)

/-- Go: `func (l *Logger) WarnDepth(depth int, v ...interface{})`. -/
def Logger.WarnDepth (l : Logger) (depth : Int) (v : List GoValue) : List LogEvent :=
  l.logTrace Level.Warn depth (sprint v)

/-- Go: `func (l *Logger) Warnln(v ...interface{})`. -/
def Logger.Warnln (l : Logger) (v : List GoValue) : List LogEvent :=
  l.logTrace Level.Warn 0 (sprintln v)

/-- Go: `func (l *Logger) Warnf(format string, v ...interface{})`. -/
def Logger.Warnf (l : Logger) (format : String) (v : List GoValue) : List LogEvent :=
  l.logTrace Level.Warn 0 (sprintf format v)

/-- Go: `func (l *Logger) Error(v ...interface{})`. -/
def Logger.Error (l : Logger) (v : List GoValue) : List LogEvent :=
  l.logTrace Level.Error 0 (sprint v)

/-- Go: `func (l *Logger) ErrorDepth(depth int, v ...interface{})`. -/
def Logger.ErrorDepth (l : Logger) (depth : Int) (v : List GoValue) : List LogEvent :=
  l.logTrace Level.Error depth (sprint v)

/-- Go: `func (l *Logger) Errorln(v ...interface{})`. -/
def Logger.Errorln (l : Logger) (v : List GoValue) : List LogEvent :=
  l.logTrace Level.Error 0 (sprintln v)

/-- Go: `func (l *Logger) Errorf(format string, v ...interface{})`. -/
def Logger.Errorf (l : Logger) (format : String) (v : List GoValue) : List LogEvent :=
  l.logTrace Level.Error 0 (sprintf format v)

/-- Go: `func (l *Logger) Fatal(v ...interface{})` — writes at `Fatal`,
then `l.Close()`, then `os.Exit(1)`. -/
def Logger.Fatal (l : Logger) (v : List GoValue) : List LogEvent :=
  l.logTrace Level.Fatal 0 (sprint v) ++ l.closeTrace ++ [LogEvent.exit 1]

/-- Go: `func (l *Logger) FatalDepth(depth int, v ...interface{})`. -/
def Logger.FatalDepth (l : Logger) (depth : Int) (v : List GoValue) : List LogEvent :=
  l.logTrace Level.Fatal depth (sprint v) ++ l.closeTrace ++ [LogEvent.exit 1]

/-- Go: `func (l *Logger) Fatalln(v ...interface{})`. -/
def Logger.Fatalln (l : Logger) (v : List GoValue) : List LogEvent :=
  l.logTrace Level.Fatal 0 (sprintln v) ++ l.closeTrace ++ [LogEvent.exit 1]

/-- Go: `func (l *Logger) Fatalf(format string, v ...interface{})`. -/
def Logger.Fatalf (l : Logger) (format : String) (v : List GoValue) : List LogEvent :=
  l.logTrace Level.Fatal 0 (sprintf format v) ++ l.closeTrace ++ [LogEvent.exit 1]

/-- Go `log` flag constant `log.Lmsgprefix = 64` (moves the tag from the
front of the line to before the message). -/
def Lmsgprefix : Nat := 64

/-- Go stdlib `log.Logger.formatHeader`, with the clock and caller facts
abstracted as strings: `dateStr` is the formatted date, `timeStr` the
`HH:MM:SS` clock, `microStr` the 6-digit microsecond field, `file` /
`shortFile` the long and short forms of the caller's file.  The flag bits
select exactly the pieces Go's implementation writes, in its order. -/
def formatHeader (flags : Nat) (dateStr timeStr microStr file shortFile : String)
    (line : Nat) : String :=
  (if flags &&& Ldate ≠ 0 then dateStr ++ " " else "") ++
  (if flags &&& (Ltime ||| Lmicroseconds) ≠ 0 then
      timeStr ++ (if flags &&& Lmicroseconds ≠ 0 then "." ++ microStr else "") ++ " "
    else "") ++
  (if flags &&& (Lshortfile ||| Llongfile) ≠ 0 then
      (if flags &&& Lshortfile ≠ 0 then shortFile else file) ++ ":" ++
        toString line ++ ": "
    else "")

/-- The line content a sink's `Output` call produces (before the trailing
newline `Output` appends when the message lacks one): the tag, the header,
and the message — with the tag after the header when `Lmsgprefix` is set,
as in Go's `log.Logger.output`. -/
def Sink.renderLine (s : Sink) (dateStr timeStr microStr file shortFile : String)
    (line : Nat) (msg : String) : String :=
  if s.flags &&& Lmsgprefix = 0 then
    s.tag ++ formatHeader s.flags dateStr timeStr microStr file shortFile line ++ msg
  else
    formatHeader s.flags dateStr timeStr microStr file shortFile line ++ s.tag ++ msg

/-- The package-global mutable state: `var DefaultLevel = Debug`. -/
structure LoggerWorld where
  defaultLevel : Level
deriving DecidableEq, Repr

/-- The initial global state (`DefaultLevel = Debug`). -/
def initialWorld : LoggerWorld := { defaultLevel := Level.Debug }

/-- Assignment `DefaultLevel = v`. -/
def setDefaultLevel (_w : LoggerWorld) (v : Level) : LoggerWorld :=
  { defaultLevel := v }

/-- Calling `New(opts...)` in global state `w`: `New` reads `DefaultLevel`
exactly once, as the initial value of `o.level`. -/
def newLogger (w : LoggerWorld) (opts : List LogOption) : Logger :=
  New w.defaultLevel opts

/-- The program «build a logger, then mutate the global default»: returns
the built instance and the final global state. -/
def buildThenSetDefault (w : LoggerWorld) (opts : List LogOption)
    (v : Level) : Logger × LoggerWorld :=
  let l := newLogger w opts
  (l, setDefaultLevel w v)

/-- Number of `Lock` acquisitions in a trace. -/
def lockCount (t : List LogEvent) : Nat :=
  t.countP (fun e => e = LogEvent.lock)

/-- Number of `Unlock` releases in a trace. -/
def unlockCount (t : List LogEvent) : Nat :=
  t.countP (fun e => e = LogEvent.unlock)

/-- The output events contained in a trace. -/
def outputEventsOf (t : List LogEvent) : List LogEvent :=
  t.filter (fun e => match e with | LogEvent.output _ _ _ _ => true | _ => false)

/-- Modelled from the spec's words (C6 refinement comparison only): «variadic
values (concatenated without separators)» — the renderings of the operands
joined with nothing in between. -/
def specConcatNoSep : List GoValue → String
  | [] => ""
  | v :: rest => v.render ++ specConcatNoSep rest

/-- Every output event of the trace carries caller-location calldepth `cd`. -/
def outputsDepthIs (tr : List LogEvent) (cd : Int) : Prop :=
  ∀ e ∈ tr, ∀ d c tg tx, e = LogEvent.output d c tg tx → c = cd

/-- Every output event of the trace carries tag `tag` and message `text`. -/
def outputsTagTextIs (tr : List LogEvent) (tag text : String) : Prop :=
  ∀ e ∈ tr, ∀ d c tg tx, e = LogEvent.output d c tg tx → tg = tag ∧ tx = text

lemma outputsDepthIs_append {t1 t2 : List LogEvent} {cd : Int}
    (h1 : outputsDepthIs t1 cd) (h2 : outputsDepthIs t2 cd) :
    outputsDepthIs (t1 ++ t2) cd := by
  intro e he
  rcases List.mem_append.mp he with h | h
  · exact h1 e h
  · exact h2 e h

lemma outputsTagTextIs_append {t1 t2 : List LogEvent} {tag text : String}
    (h1 : outputsTagTextIs t1 tag text) (h2 : outputsTagTextIs t2 tag text) :
    outputsTagTextIs (t1 ++ t2) tag text := by
  intro e he
  rcases List.mem_append.mp he with h | h
  · exact h1 e h
  · exact h2 e h

lemma outputsDepthIs_outputEvents (s : Sink) (cd : Int) (text : String) :
    outputsDepthIs (s.outputEvents cd text) cd := by
  intro e he d c tg tx heq
  rcases List.mem_map.mp he with ⟨dst, _, rfl⟩
  cases heq
  rfl

lemma outputsTagTextIs_outputEvents (s : Sink) (cd : Int) (text : String) :
    outputsTagTextIs (s.outputEvents cd text) s.tag text := by
  intro e he d c tg tx heq
  rcases List.mem_map.mp he with ⟨dst, _, rfl⟩
  cases heq
  exact ⟨rfl, rfl⟩

lemma outputsDepthIs_switchEvents (l : Logger) (lv : Level) (depth : Int)
    (text : String) : outputsDepthIs (l.switchEvents lv depth text) (3 + depth) := by
  unfold Logger.switchEvents
  repeat' split
  all_goals first
    | exact outputsDepthIs_outputEvents _ _ _
    | intro e he d c tg tx heq; cases he

lemma outputsDepthIs_logTrace (l : Logger) (lv : Level) (depth : Int)
    (text : String) : outputsDepthIs (l.logTrace lv depth text) (3 + depth) := by
  unfold Logger.logTrace
  split
  · intro e he; cases he
  · intro e he d c tg tx heq
    rcases List.mem_cons.mp he with h | h
    · subst h; cases heq
    · rcases List.mem_append.mp h with h | h
      · exact outputsDepthIs_switchEvents l lv depth text e h d c tg tx heq
      · rcases List.mem_singleton.mp h with rfl; cases heq

/-- Shape of the close-loop events: each is a close call or a diagnostic. -/
lemma closeLoop_shape (ws : List LogWriter) :
    ∀ e ∈ (closeLoop ws).1,
      (∃ c, e = LogEvent.closeCall c) ∨ (∃ c, e = LogEvent.closeDiag c) := by
  induction ws with
  | nil => intro e he; cases he
  | cons c rest ih =>
      intro e he
      rcases List.mem_cons.mp he with h | h
      · exact Or.inl ⟨c, h⟩
      · rcases List.mem_append.mp h with h | h
        · rcases hf : c.closeFails with _ | _
          · rw [hf] at h; cases h
          · rw [hf] at h; rcases List.mem_singleton.mp h with rfl
            exact Or.inr ⟨c, rfl⟩
        · exact ih e h

lemma closeCall_mem_closeLoop {c : LogWriter} {ws : List LogWriter}
    (h : c ∈ ws) : LogEvent.closeCall c ∈ (closeLoop ws).1 := by
  induction ws with
  | nil => cases h
  | cons w rest ih =>
      rcases List.mem_cons.mp h with rfl | h
      · exact List.mem_cons_self _ _
      · exact List.mem_cons.mpr (Or.inr (List.mem_append.mpr (Or.inr (ih h))))

lemma closeDiag_mem_closeLoop {c : LogWriter} {ws : List LogWriter}
    (h : c ∈ ws) (hf : c.closeFails = true) :
    LogEvent.closeDiag c ∈ (closeLoop ws).1 := by
  induction ws with
  | nil => cases h
  | cons w rest ih =>
      rcases List.mem_cons.mp h with rfl | h
      · exact List.mem_cons.mpr
          (Or.inr (List.mem_append.mpr (Or.inl (by rw [hf]; exact List.mem_singleton.mpr rfl))))
      · exact List.mem_cons.mpr (Or.inr (List.mem_append.mpr (Or.inr (ih h))))

lemma closeLoop_snd_eq_any (ws : List LogWriter) :
    (closeLoop ws).2 = ws.any (fun c => c.closeFails) := by
  induction ws with
  | nil => rfl
  | cons w rest ih => simp [closeLoop, ih]

lemma closeTrace_no_output (l : Logger) :
    ∀ e ∈ l.closeTrace, ∀ d c tg tx, e ≠ LogEvent.output d c tg tx := by
  intro e he d c tg tx heq
  subst heq
  unfold Logger.closeTrace at he
  rcases List.mem_cons.mp he with h | h
  · cases h
  · rcases List.mem_append.mp h with h | h
    · rcases closeLoop_shape l.closers _ h with ⟨w, hw⟩ | ⟨w, hw⟩ <;> cases hw
    · rcases List.mem_singleton.mp h with h; cases h

lemma outputEventsOf_closeTrace (l : Logger) : outputEventsOf l.closeTrace = [] := by
  unfold outputEventsOf
  rw [List.filter_eq_nil_iff]
  intro e he
  cases e
  case output d c tg tx => exact absurd rfl (closeTrace_no_output l _ he d c tg tx)
  all_goals simp

lemma lockCount_outputEvents (s : Sink) (cd : Int) (t : String) :
    lockCount (s.outputEvents cd t) = 0 := by
  unfold lockCount Sink.outputEvents
  rw [List.countP_eq_zero]
  intro e he
  rcases List.mem_map.mp he with ⟨d, _, rfl⟩
  simp

lemma unlockCount_outputEvents (s : Sink) (cd : Int) (t : String) :
    unlockCount (s.outputEvents cd t) = 0 := by
  unfold unlockCount Sink.outputEvents
  rw [List.countP_eq_zero]
  intro e he
  rcases List.mem_map.mp he with ⟨d, _, rfl⟩
  simp

lemma lockCount_switchEvents (l : Logger) (lv : Level) (depth : Int) (t : String) :
    lockCount (l.switchEvents lv depth t) = 0 := by
  unfold Logger.switchEvents
  repeat' split
  all_goals first
    | apply lockCount_outputEvents
    | rfl

lemma unlockCount_switchEvents (l : Logger) (lv : Level) (depth : Int) (t : String) :
    unlockCount (l.switchEvents lv depth t) = 0 := by
  unfold Logger.switchEvents
  repeat' split
  all_goals first
    | apply unlockCount_outputEvents
    | rfl

/-- The write path's critical section is balanced: `log` releases every lock
it takes before returning. -/
lemma logTrace_balanced (l : Logger) (lv : Level) (depth : Int) (t : String) :
    lockCount (l.logTrace lv depth t) = unlockCount (l.logTrace lv depth t) := by
  have h1 := lockCount_switchEvents l lv depth t
  have h2 := unlockCount_switchEvents l lv depth t
  unfold lockCount unlockCount at *
  unfold Logger.logTrace
  split
  · rfl
  · simp [List.countP_cons, List.countP_append, h1, h2]

lemma lockCount_closeLoop (ws : List LogWriter) :
    List.countP (fun e => e = LogEvent.lock) (closeLoop ws).1 = 0 := by
  rw [List.countP_eq_zero]
  intro e he
  rcases closeLoop_shape ws e he with ⟨c, rfl⟩ | ⟨c, rfl⟩ <;> simp

lemma unlockCount_closeLoop (ws : List LogWriter) :
    List.countP (fun e => e = LogEvent.unlock) (closeLoop ws).1 = 0 := by
  rw [List.countP_eq_zero]
  intro e he
  rcases closeLoop_shape ws e he with ⟨c, rfl⟩ | ⟨c, rfl⟩ <;> simp

/-- The close path's critical section is balanced as well. -/
lemma closeTrace_balanced (l : Logger) :
    lockCount l.closeTrace = unlockCount l.closeTrace := by
  have h1 := lockCount_closeLoop l.closers
  have h2 := unlockCount_closeLoop l.closers
  unfold lockCount unlockCount Logger.closeTrace
  simp [List.countP_cons, List.countP_append, h1, h2]

/-- The initial options record `New` builds before applying the callers'
options: `o := options{level: DefaultLevel, logFlags: defaultLogFlags}`. -/
def defaultOptions (defaultLevel : Level) : options :=
  { level := defaultLevel, infoLogFile := none, errorLogFile := none,
    logFlags := defaultLogFlags }

lemma New_debugLog (dl : Level) (opts : List LogOption) :
    (New dl opts).debugLog =
      { dests := Dest.stdout :: optDest (applyOpts (defaultOptions dl) opts).infoLogFile,
        tag := tagDebug, flags := (applyOpts (defaultOptions dl) opts).logFlags } := rfl

lemma New_infoLog (dl : Level) (opts : List LogOption) :
    (New dl opts).infoLog =
      { dests := Dest.stdout :: optDest (applyOpts (defaultOptions dl) opts).infoLogFile,
        tag := tagInfo, flags := (applyOpts (defaultOptions dl) opts).logFlags } := rfl

lemma New_warnLog (dl : Level) (opts : List LogOption) :
    (New dl opts).warnLog =
      { dests := Dest.stderr :: optDest (applyOpts (defaultOptions dl) opts).errorLogFile,
        tag := tagWarn, flags := (applyOpts (defaultOptions dl) opts).logFlags } := rfl

lemma New_errorLog (dl : Level) (opts : List LogOption) :
    (New dl opts).errorLog =
      { dests := Dest.stderr :: optDest (applyOpts (defaultOptions dl) opts).errorLogFile,
        tag := tagError, flags := (applyOpts (defaultOptions dl) opts).logFlags } := rfl

lemma New_fatalLog (dl : Level) (opts : List LogOption) :
    (New dl opts).fatalLog =
      { dests := Dest.stderr :: optDest (applyOpts (defaultOptions dl) opts).errorLogFile,
        tag := tagFatal, flags := (applyOpts (defaultOptions dl) opts).logFlags } := rfl

lemma New_level (dl : Level) (opts : List LogOption) :
    (New dl opts).level = (applyOpts (defaultOptions dl) opts).level := rfl

lemma New_closers (dl : Level) (opts : List LogOption) :
    (New dl opts).closers =
      (optOutputs (applyOpts (defaultOptions dl) opts).infoLogFile ++
        optOutputs (applyOpts (defaultOptions dl) opts).errorLogFile).filter
        (fun w => w.closable) := rfl

/-- C1: for a Logger built by `New`, a write invoked at a severity strictly
below the configured minimum is a complete no-op — its event trace is empty,
so no destination receives output and the lock is never taken; at any of the
five severities at or above the minimum, an output event carrying the message
reaches a destination. -/
theorem C1_severity_filtering (dl : Level) (opts : List LogOption)
    (lv : Int) (depth : Int) (t : String) :
    (lv < (New dl opts).level → (New dl opts).logTrace lv depth t = []) ∧
    (¬ lv < (New dl opts).level → 0 ≤ lv → lv ≤ 4 →
      ∃ d cd tag, LogEvent.output d cd tag t ∈ (New dl opts).logTrace lv depth t) := by
  constructor
  · intro h
    unfold Logger.logTrace
    rw [if_pos h]
  · intro h h0 h4
    have hcases : lv = (0 : Int) ∨ lv = (1 : Int) ∨ lv = (2 : Int) ∨
        lv = (3 : Int) ∨ lv = (4 : Int) := by omega
    have hle : (New dl opts).level ≤ lv := Int.not_lt.mp h
    rcases hcases with rfl | rfl | rfl | rfl | rfl
    · exact ⟨Dest.stdout, 3 + depth, tagDebug, by
        simp [Logger.logTrace, Logger.switchEvents, Sink.outputEvents,
          New_debugLog, Level.Debug, Level.Info, Level.Warn, Level.Error,
          Level.Fatal, hle]⟩
    · exact ⟨Dest.stdout, 3 + depth, tagInfo, by
        simp [Logger.logTrace, Logger.switchEvents, Sink.outputEvents,
          New_infoLog, Level.Debug, Level.Info, Level.Warn, Level.Error,
          Level.Fatal, hle]⟩
    · exact ⟨Dest.stderr, 3 + depth, tagWarn, by
        simp [Logger.logTrace, Logger.switchEvents, Sink.outputEvents,
          New_warnLog, Level.Debug, Level.Info, Level.Warn, Level.Error,
          Level.Fatal, hle]⟩
    · exact ⟨Dest.stderr, 3 + depth, tagError, by
        simp [Logger.logTrace, Logger.switchEvents, Sink.outputEvents,
          New_errorLog, Level.Debug, Level.Info, Level.Warn, Level.Error,
          Level.Fatal, hle]⟩
    · exact ⟨Dest.stderr, 3 + depth, tagFatal, by
        simp [Logger.logTrace, Logger.switchEvents, Sink.outputEvents,
          New_fatalLog, Level.Debug, Level.Info, Level.Warn, Level.Error,
          Level.Fatal, hle]⟩

/-- Witness for C1 at a concrete configuration: minimum severity `Warn`,
a suppressed `Debug` write and a delivered `Error` write. -/
theorem C1_witness :
    (New Level.Warn []).logTrace Level.Debug 0 "x" = [] ∧
    ∃ d cd tag, LogEvent.output d cd tag "y" ∈
      (New Level.Warn []).logTrace Level.Error 0 "y" :=
  ⟨(C1_severity_filtering Level.Warn [] Level.Debug 0 "x").1 (by decide),
   (C1_severity_filtering Level.Warn [] Level.Error 0 "y").2
     (by decide) (by decide) (by decide)⟩

/-- C2: every Logger built by `New` gives Debug and Info the low sink group —
standard output, plus the configured info file when present — and gives
Warn, Error and Fatal the high sink group — standard error, plus the
configured error file when present; a Debug/Info write fans out over exactly
the low group and a Warn/Error/Fatal write over exactly the high group, and
each severity's group always contains its console stream. -/
theorem C2_routing (dl : Level) (opts : List LogOption) (depth : Int) (t : String) :
    ((New dl opts).debugLog.dests =
       Dest.stdout :: optDest (applyOpts (defaultOptions dl) opts).infoLogFile) ∧
    ((New dl opts).infoLog.dests =
       Dest.stdout :: optDest (applyOpts (defaultOptions dl) opts).infoLogFile) ∧
    ((New dl opts).warnLog.dests =
       Dest.stderr :: optDest (applyOpts (defaultOptions dl) opts).errorLogFile) ∧
    ((New dl opts).errorLog.dests =
       Dest.stderr :: optDest (applyOpts (defaultOptions dl) opts).errorLogFile) ∧
    ((New dl opts).fatalLog.dests =
       Dest.stderr :: optDest (applyOpts (defaultOptions dl) opts).errorLogFile) ∧
    ((New dl opts).switchEvents Level.Debug depth t =
       Sink.outputEvents (New dl opts).debugLog (3 + depth) t) ∧
    ((New dl opts).switchEvents Level.Info depth t =
       Sink.outputEvents (New dl opts).infoLog (3 + depth) t) ∧
    ((New dl opts).switchEvents Level.Warn depth t =
       Sink.outputEvents (New dl opts).warnLog (3 + depth) t) ∧
    ((New dl opts).switchEvents Level.Error depth t =
       Sink.outputEvents (New dl opts).errorLog (3 + depth) t) ∧
    ((New dl opts).switchEvents Level.Fatal depth t =
       Sink.outputEvents (New dl opts).fatalLog (3 + depth) t) ∧
    Dest.stdout ∈ (New dl opts).debugLog.dests ∧
    Dest.stdout ∈ (New dl opts).infoLog.dests ∧
    Dest.stderr ∈ (New dl opts).warnLog.dests ∧
    Dest.stderr ∈ (New dl opts).errorLog.dests ∧
    Dest.stderr ∈ (New dl opts).fatalLog.dests := by
  refine ⟨rfl, rfl, rfl, rfl, rfl, ?_, ?_, ?_, ?_, ?_, ?_, ?_, ?_, ?_, ?_⟩
  · simp [Logger.switchEvents, Level.Debug, Level.Info, Level.Warn,
      Level.Error, Level.Fatal]
  · simp [Logger.switchEvents, Level.Debug, Level.Info, Level.Warn,
      Level.Error, Level.Fatal]
  · simp [Logger.switchEvents, Level.Debug, Level.Info, Level.Warn,
      Level.Error, Level.Fatal]
  · simp [Logger.switchEvents, Level.Debug, Level.Info, Level.Warn,
      Level.Error, Level.Fatal]
  · simp [Logger.switchEvents, Level.Debug, Level.Info, Level.Warn,
      Level.Error, Level.Fatal]
  · exact List.mem_cons_self _ _
  · exact List.mem_cons_self _ _
  · exact List.mem_cons_self _ _
  · exact List.mem_cons_self _ _
  · exact List.mem_cons_self _ _

/-- C3: `Close` attempts to release every owned closable — each one receives
a close call even when another one fails — reports each individual failure
with a diagnostic event, and returns the aggregate error exactly when at
least one release failed, returning success otherwise. -/
theorem C3_close_aggregates (l : Logger) :
    (∀ c ∈ l.closers, LogEvent.closeCall c ∈ l.closeTrace) ∧
    (∀ c ∈ l.closers, c.closeFails = true → LogEvent.closeDiag c ∈ l.closeTrace) ∧
    (l.closeErr = some "failed to close some logs" ↔
      ∃ c ∈ l.closers, c.closeFails = true) ∧
    (l.closeErr = none ↔ ∀ c ∈ l.closers, c.closeFails = false) := by
  refine ⟨?_, ?_, ?_, ?_⟩
  · intro c hc
    exact List.mem_cons.mpr
      (Or.inr (List.mem_append.mpr (Or.inl (closeCall_mem_closeLoop hc))))
  · intro c hc hf
    exact List.mem_cons.mpr
      (Or.inr (List.mem_append.mpr (Or.inl (closeDiag_mem_closeLoop hc hf))))
  · unfold Logger.closeErr
    rw [closeLoop_snd_eq_any]
    constructor
    · intro h
      by_cases hany : l.closers.any (fun c => c.closeFails) = true
      · exact List.any_eq_true.mp hany
      · rw [if_neg hany] at h
        cases h
    · intro h
      rw [if_pos (List.any_eq_true.mpr h)]
  · unfold Logger.closeErr
    rw [closeLoop_snd_eq_any]
    constructor
    · intro h c hc
      by_cases hany : l.closers.any (fun c => c.closeFails) = true
      · rw [if_pos hany] at h
        cases h
      · rcases hf : c.closeFails with _ | _
        · rfl
        · exact absurd (List.any_eq_true.mpr ⟨c, hc, hf⟩) hany
    · intro h
      rw [if_neg ?_]
      intro hany
      rcases List.any_eq_true.mp hany with ⟨c, hc, hf⟩
      rw [h c hc] at hf
      cases hf

/-- Witness for C3: a Logger owning one failing and one succeeding closable —
both receive close calls, the failure is reported, and `Close` returns the
aggregate error. -/
theorem C3_witness :
    (LogEvent.closeCall { id := 1, closable := true, closeFails := true } ∈
      (New Level.Debug
        [WithInfoLogFile { id := 1, closable := true, closeFails := true },
         WithErrorLogFile { id := 2, closable := true, closeFails := false }]).closeTrace) ∧
    (LogEvent.closeCall { id := 2, closable := true, closeFails := false } ∈
      (New Level.Debug
        [WithInfoLogFile { id := 1, closable := true, closeFails := true },
         WithErrorLogFile { id := 2, closable := true, closeFails := false }]).closeTrace) ∧
    (LogEvent.closeDiag { id := 1, closable := true, closeFails := true } ∈
      (New Level.Debug
        [WithInfoLogFile { id := 1, closable := true, closeFails := true },
         WithErrorLogFile { id := 2, closable := true, closeFails := false }]).closeTrace) ∧
    (New Level.Debug
        [WithInfoLogFile { id := 1, closable := true, closeFails := true },
         WithErrorLogFile { id := 2, closable := true, closeFails := false }]).closeErr =
      some "failed to close some logs" :=
  ⟨(C3_close_aggregates _).1 _ (by decide),
   (C3_close_aggregates _).1 _ (by decide),
   (C3_close_aggregates _).2.1 _ (by decide) (by decide),
   (C3_close_aggregates _).2.2.1.mpr
     ⟨{ id := 1, closable := true, closeFails := true }, by decide, by decide⟩⟩

/-- C4: every Fatal-severity operation first runs the write path, then the
full `Close` release path, then exits with status 1 (non-zero); the write
path's trace is lock-balanced — every lock it takes is released before the
Fatal method calls `Close` — so `Close` begins with its own fresh lock
acquisition and cannot self-deadlock. -/
theorem C4_fatal_close_exit (l : Logger) (depth : Int) (format : String)
    (v : List GoValue) :
    (l.Fatal v =
      l.logTrace Level.Fatal 0 (sprint v) ++ (l.closeTrace ++ [LogEvent.exit 1])) ∧
    (l.FatalDepth depth v =
      l.logTrace Level.Fatal depth (sprint v) ++ (l.closeTrace ++ [LogEvent.exit 1])) ∧
    (l.Fatalln v =
      l.logTrace Level.Fatal 0 (sprintln v) ++ (l.closeTrace ++ [LogEvent.exit 1])) ∧
    (l.Fatalf format v =
      l.logTrace Level.Fatal 0 (sprintf format v) ++ (l.closeTrace ++ [LogEvent.exit 1])) ∧
    (∀ lv d t, lockCount (l.logTrace lv d t) = unlockCount (l.logTrace lv d t)) ∧
    l.closeTrace.head? = some LogEvent.lock ∧
    lockCount l.closeTrace = unlockCount l.closeTrace ∧
    (l.Fatal v).getLast? = some (LogEvent.exit 1) ∧
    (l.FatalDepth depth v).getLast? = some (LogEvent.exit 1) ∧
    (l.Fatalln v).getLast? = some (LogEvent.exit 1) ∧
    (l.Fatalf format v).getLast? = some (LogEvent.exit 1) := by
  refine ⟨by simp [Logger.Fatal], by simp [Logger.FatalDepth], by simp [Logger.Fatalln],
    by simp [Logger.Fatalf], fun lv d t => logTrace_balanced l lv d t, rfl,
    closeTrace_balanced l, ?_, ?_, ?_, ?_⟩
  · unfold Logger.Fatal
    rw [List.getLast?_concat]
  · unfold Logger.FatalDepth
    rw [List.getLast?_concat]
  · unfold Logger.Fatalln
    rw [List.getLast?_concat]
  · unfold Logger.Fatalf
    rw [List.getLast?_concat]

/-- With the default flag set, the header is date, time with microseconds,
and short file with line number. -/
lemma formatHeader_default (dateStr timeStr microStr file shortFile : String)
    (line : Nat) :
    formatHeader defaultLogFlags dateStr timeStr microStr file shortFile line =
      dateStr ++ " " ++ (timeStr ++ "." ++ microStr ++ " ") ++
        (shortFile ++ ":" ++ toString line ++ ": ") := by
  simp [formatHeader, defaultLogFlags, Ldate, Ltime, Lmicroseconds, Llongfile,
    Lshortfile, String.append_assoc]

/-- A sink carrying the default flags renders tag, then header, then message. -/
lemma renderLine_default (s : Sink) (h : s.flags = defaultLogFlags)
    (dateStr timeStr microStr file shortFile msg : String) (line : Nat) :
    s.renderLine dateStr timeStr microStr file shortFile line msg =
      s.tag ++ (dateStr ++ " " ++ (timeStr ++ "." ++ microStr ++ " ") ++
        (shortFile ++ ":" ++ toString line ++ ": ")) ++ msg := by
  unfold Sink.renderLine
  rw [h, if_pos (by decide), formatHeader_default]

/-- Counterexample to C5 as stated: the fixed severity labels of a Logger
built by `New` are 7 characters long (for example "DEBUG: " — five letters,
a colon and a space), not 6 as the claim says. -/
theorem C5_counterexample :
    (New Level.Debug []).debugLog.tag.length ≠ 6 ∧
    (New Level.Debug []).debugLog.tag.length = 7 ∧
    (New Level.Debug []).infoLog.tag.length = 7 ∧
    (New Level.Debug []).warnLog.tag.length = 7 ∧
    (New Level.Debug []).errorLog.tag.length = 7 ∧
    (New Level.Debug []).fatalLog.tag.length = 7 := by decide

/-- C5 (amended): for every Logger built by `New` whose options leave the
default format flags in place, each severity's rendered line has the format
`<tag><date> <time-with-microseconds> <short-file>:<line>: <message>`, where
the tag is that severity's fixed 7-character label. -/
theorem C5_line_format (dl : Level) (opts : List LogOption)
    (dateStr timeStr microStr file shortFile msg : String) (line : Nat)
    (hflags : (applyOpts (defaultOptions dl) opts).logFlags = defaultLogFlags) :
    ∀ s ∈ [(New dl opts).debugLog, (New dl opts).infoLog, (New dl opts).warnLog,
           (New dl opts).errorLog, (New dl opts).fatalLog],
      s.renderLine dateStr timeStr microStr file shortFile line msg =
        s.tag ++ (dateStr ++ " " ++ (timeStr ++ "." ++ microStr ++ " ") ++
          (shortFile ++ ":" ++ toString line ++ ": ")) ++ msg ∧
      s.tag.length = 7 := by
  intro s hs
  simp only [List.mem_cons, List.not_mem_nil, or_false] at hs
  rcases hs with rfl | rfl | rfl | rfl | rfl
  · exact ⟨renderLine_default _ (by rw [New_debugLog, hflags]) _ _ _ _ _ _ _,
      by rw [New_debugLog]; exact (by decide : tagDebug.length = 7)⟩
  · exact ⟨renderLine_default _ (by rw [New_infoLog, hflags]) _ _ _ _ _ _ _,
      by rw [New_infoLog]; exact (by decide : tagInfo.length = 7)⟩
  · exact ⟨renderLine_default _ (by rw [New_warnLog, hflags]) _ _ _ _ _ _ _,
      by rw [New_warnLog]; exact (by decide : tagWarn.length = 7)⟩
  · exact ⟨renderLine_default _ (by rw [New_errorLog, hflags]) _ _ _ _ _ _ _,
      by rw [New_errorLog]; exact (by decide : tagError.length = 7)⟩
  · exact ⟨renderLine_default _ (by rw [New_fatalLog, hflags]) _ _ _ _ _ _ _,
      by rw [New_fatalLog]; exact (by decide : tagFatal.length = 7)⟩

/-- Witness for C5 at a concrete default construction and concrete header
facts. -/
theorem C5_witness :
    (applyOpts (defaultOptions Level.Debug) []).logFlags = defaultLogFlags ∧
    ∀ s ∈ [(New Level.Debug []).debugLog, (New Level.Debug []).infoLog,
           (New Level.Debug []).warnLog, (New Level.Debug []).errorLog,
           (New Level.Debug []).fatalLog],
      s.renderLine "2009/01/23" "01:23:23" "123123" "/a/b/d.go" "d.go" 23 "hello" =
        s.tag ++ ("2009/01/23" ++ " " ++ ("01:23:23" ++ "." ++ "123123" ++ " ") ++
          ("d.go" ++ ":" ++ toString 23 ++ ": ")) ++ "hello" ∧
      s.tag.length = 7 :=
  ⟨rfl, C5_line_format Level.Debug [] "2009/01/23" "01:23:23" "123123"
    "/a/b/d.go" "d.go" "hello" 23 rfl⟩

/-- When every operand is a string, `fmt.Sprint` concatenates the renderings
with no separator at all. -/
lemma sprint_all_strings (vs : List GoValue) (h : ∀ x ∈ vs, x.isStr = true) :
    sprint vs = specConcatNoSep vs := by
  induction vs with
  | nil => rfl
  | cons v rest ih =>
      cases rest with
      | nil => simp [sprint, specConcatNoSep]
      | cons w rest2 =>
          have hv : v.isStr = true := h v (List.mem_cons_self _ _)
          have hrest : ∀ x ∈ w :: rest2, x.isStr = true :=
            fun x hx => h x (List.mem_cons.mpr (Or.inr hx))
          have ih2 := ih hrest
          simp [sprint, specConcatNoSep, hv, ih2, String.append_assoc]

/-- `fmt.Sprintln` always ends in the line terminator. -/
lemma sprintln_trailing_newline (vs : List GoValue) :
    ∃ s, sprintln vs = s ++ "\n" := by
  induction vs with
  | nil => exact ⟨"", rfl⟩
  | cons v rest ih =>
      cases rest with
      | nil => exact ⟨v.render, rfl⟩
      | cons w rest2 =>
          rcases ih with ⟨s, hs⟩
          exact ⟨v.render ++ " " ++ s, by
            simp [sprintln, hs, String.append_assoc]⟩

lemma outputsTagTextIs_logTrace_of_switch {l : Logger} {lv : Level}
    {depth : Int} {t tg : String}
    (h : outputsTagTextIs (l.switchEvents lv depth t) tg t) :
    outputsTagTextIs (l.logTrace lv depth t) tg t := by
  unfold Logger.logTrace
  split
  · intro e he; cases he
  · intro e he d c tg2 tx heq
    rcases List.mem_cons.mp he with rfl | hm
    · cases heq
    · rcases List.mem_append.mp hm with hm | hm
      · exact h e hm d c tg2 tx heq
      · rcases List.mem_singleton.mp hm with rfl
        cases heq

lemma outputsTagTextIs_closeTrace (l : Logger) (tg t : String) :
    outputsTagTextIs l.closeTrace tg t := by
  intro e he d c tg2 tx heq
  exact absurd heq (closeTrace_no_output l e he d c tg2 tx)

lemma outputsTagTextIs_exitOne (tg t : String) :
    outputsTagTextIs [LogEvent.exit 1] tg t := by
  intro e he d c tg2 tx heq
  rcases List.mem_singleton.mp he with rfl
  cases heq

lemma New_switch_debug_tagText (dl : Level) (opts : List LogOption)
    (depth : Int) (t : String) :
    outputsTagTextIs ((New dl opts).switchEvents Level.Debug depth t) tagDebug t := by
  have heq : (New dl opts).switchEvents Level.Debug depth t =
      Sink.outputEvents ((New dl opts).debugLog) (3 + depth) t := by
    simp [Logger.switchEvents, Level.Debug, Level.Info, Level.Warn,
      Level.Error, Level.Fatal]
  rw [heq]
  exact outputsTagTextIs_outputEvents ((New dl opts).debugLog) (3 + depth) t

lemma New_switch_info_tagText (dl : Level) (opts : List LogOption)
    (depth : Int) (t : String) :
    outputsTagTextIs ((New dl opts).switchEvents Level.Info depth t) tagInfo t := by
  have heq : (New dl opts).switchEvents Level.Info depth t =
      Sink.outputEvents ((New dl opts).infoLog) (3 + depth) t := by
    simp [Logger.switchEvents, Level.Debug, Level.Info, Level.Warn,
      Level.Error, Level.Fatal]
  rw [heq]
  exact outputsTagTextIs_outputEvents ((New dl opts).infoLog) (3 + depth) t

lemma New_switch_warn_tagText (dl : Level) (opts : List LogOption)
    (depth : Int) (t : String) :
    outputsTagTextIs ((New dl opts).switchEvents Level.Warn depth t) tagWarn t := by
  have heq : (New dl opts).switchEvents Level.Warn depth t =
      Sink.outputEvents ((New dl opts).warnLog) (3 + depth) t := by
    simp [Logger.switchEvents, Level.Debug, Level.Info, Level.Warn,
      Level.Error, Level.Fatal]
  rw [heq]
  exact outputsTagTextIs_outputEvents ((New dl opts).warnLog) (3 + depth) t

lemma New_switch_error_tagText (dl : Level) (opts : List LogOption)
    (depth : Int) (t : String) :
    outputsTagTextIs ((New dl opts).switchEvents Level.Error depth t) tagError t := by
  have heq : (New dl opts).switchEvents Level.Error depth t =
      Sink.outputEvents ((New dl opts).errorLog) (3 + depth) t := by
    simp [Logger.switchEvents, Level.Debug, Level.Info, Level.Warn,
      Level.Error, Level.Fatal]
  rw [heq]
  exact outputsTagTextIs_outputEvents ((New dl opts).errorLog) (3 + depth) t

lemma New_switch_fatal_tagText (dl : Level) (opts : List LogOption)
    (depth : Int) (t : String) :
    outputsTagTextIs ((New dl opts).switchEvents Level.Fatal depth t) tagFatal t := by
  have heq : (New dl opts).switchEvents Level.Fatal depth t =
      Sink.outputEvents ((New dl opts).fatalLog) (3 + depth) t := by
    simp [Logger.switchEvents, Level.Debug, Level.Info, Level.Warn,
      Level.Error, Level.Fatal]
  rw [heq]
  exact outputsTagTextIs_outputEvents ((New dl opts).fatalLog) (3 + depth) t

/-- Counterexample to C6 as stated: `fmt.Sprint` inserts a space between two
adjacent operands when neither is a string, so `Debug(1, 2)` on a default
Logger writes the body "1 2", not the separator-free concatenation "12". -/
theorem C6_counterexample :
    (New Level.Debug []).Debug [GoValue.int 1, GoValue.int 2] =
      [LogEvent.lock, LogEvent.output Dest.stdout 3 tagDebug "1 2",
       LogEvent.unlock] ∧
    specConcatNoSep [GoValue.int 1, GoValue.int 2] = "12" ∧
    ("1 2" : String) ≠ "12" := by decide

/-- C6 (amended): for every write at or above the configured minimum, the
message body written is exactly the rendering of the arguments under the
chosen variant with Go's `fmt` semantics — the variadic form concatenates
the operands' renderings inserting a space between two adjacent operands
only when neither is a string (so all-string arguments concatenate with no
separator), the line-terminated form separates all operands with spaces and
appends a trailing line terminator, and the formatted form substitutes the
arguments into the format string; each delivered message carries exactly
its severity's tag. -/
theorem C6_message_bodies (dl : Level) (opts : List LogOption) (depth : Int)
    (format : String) (v : List GoValue) :
    (∀ vs : List GoValue, (∀ x ∈ vs, x.isStr = true) →
      sprint vs = specConcatNoSep vs) ∧
    (∀ vs : List GoValue, ∃ s, sprintln vs = s ++ "\n") ∧
    outputsTagTextIs ((New dl opts).Debug v) tagDebug (sprint v) ∧
    outputsTagTextIs ((New dl opts).DebugDepth depth v) tagDebug (sprint v) ∧
    outputsTagTextIs ((New dl opts).Debugln v) tagDebug (sprintln v) ∧
    outputsTagTextIs ((New dl opts).Debugf format v) tagDebug (sprintf format v) ∧
    outputsTagTextIs ((New dl opts).Info v) tagInfo (sprint v) ∧
    outputsTagTextIs ((New dl opts).InfoDepth depth v) tagInfo (sprint v) ∧
    outputsTagTextIs ((New dl opts).Infoln v) tagInfo (sprintln v) ∧
    outputsTagTextIs ((New dl opts).Infof format v) tagInfo (sprintf format v) ∧
    outputsTagTextIs ((New dl opts).Warn v) tagWarn (sprint v) ∧
    outputsTagTextIs ((New dl opts).WarnDepth depth v) tagWarn (sprint v) ∧
    outputsTagTextIs ((New dl opts).Warnln v) tagWarn (sprintln v) ∧
    outputsTagTextIs ((New dl opts).Warnf format v) tagWarn (sprintf format v) ∧
    outputsTagTextIs ((New dl opts).Error v) tagError (sprint v) ∧
    outputsTagTextIs ((New dl opts).ErrorDepth depth v) tagError (sprint v) ∧
    outputsTagTextIs ((New dl opts).Errorln v) tagError (sprintln v) ∧
    outputsTagTextIs ((New dl opts).Errorf format v) tagError (sprintf format v) ∧
    outputsTagTextIs ((New dl opts).Fatal v) tagFatal (sprint v) ∧
    outputsTagTextIs ((New dl opts).FatalDepth depth v) tagFatal (sprint v) ∧
    outputsTagTextIs ((New dl opts).Fatalln v) tagFatal (sprintln v) ∧
    outputsTagTextIs ((New dl opts).Fatalf format v) tagFatal (sprintf format v) := by
  refine ⟨sprint_all_strings, sprintln_trailing_newline,
    ?_, ?_, ?_, ?_, ?_, ?_, ?_, ?_, ?_, ?_, ?_, ?_, ?_, ?_, ?_, ?_, ?_, ?_, ?_, ?_⟩
  · exact outputsTagTextIs_logTrace_of_switch (New_switch_debug_tagText dl opts 0 _)
  · exact outputsTagTextIs_logTrace_of_switch (New_switch_debug_tagText dl opts depth _)
  · exact outputsTagTextIs_logTrace_of_switch (New_switch_debug_tagText dl opts 0 _)
  · exact outputsTagTextIs_logTrace_of_switch (New_switch_debug_tagText dl opts 0 _)
  · exact outputsTagTextIs_logTrace_of_switch (New_switch_info_tagText dl opts 0 _)
  · exact outputsTagTextIs_logTrace_of_switch (New_switch_info_tagText dl opts depth _)
  · exact outputsTagTextIs_logTrace_of_switch (New_switch_info_tagText dl opts 0 _)
  · exact outputsTagTextIs_logTrace_of_switch (New_switch_info_tagText dl opts 0 _)
  · exact outputsTagTextIs_logTrace_of_switch (New_switch_warn_tagText dl opts 0 _)
  · exact outputsTagTextIs_logTrace_of_switch (New_switch_warn_tagText dl opts depth _)
  · exact outputsTagTextIs_logTrace_of_switch (New_switch_warn_tagText dl opts 0 _)
  · exact outputsTagTextIs_logTrace_of_switch (New_switch_warn_tagText dl opts 0 _)
  · exact outputsTagTextIs_logTrace_of_switch (New_switch_error_tagText dl opts 0 _)
  · exact outputsTagTextIs_logTrace_of_switch (New_switch_error_tagText dl opts depth _)
  · exact outputsTagTextIs_logTrace_of_switch (New_switch_error_tagText dl opts 0 _)
  · exact outputsTagTextIs_logTrace_of_switch (New_switch_error_tagText dl opts 0 _)
  · exact outputsTagTextIs_append
      (outputsTagTextIs_append
        (outputsTagTextIs_logTrace_of_switch (New_switch_fatal_tagText dl opts 0 _))
        (outputsTagTextIs_closeTrace _ _ _))
      (outputsTagTextIs_exitOne _ _)
  · exact outputsTagTextIs_append
      (outputsTagTextIs_append
        (outputsTagTextIs_logTrace_of_switch (New_switch_fatal_tagText dl opts depth _))
        (outputsTagTextIs_closeTrace _ _ _))
      (outputsTagTextIs_exitOne _ _)
  · exact outputsTagTextIs_append
      (outputsTagTextIs_append
        (outputsTagTextIs_logTrace_of_switch (New_switch_fatal_tagText dl opts 0 _))
        (outputsTagTextIs_closeTrace _ _ _))
      (outputsTagTextIs_exitOne _ _)
  · exact outputsTagTextIs_append
      (outputsTagTextIs_append
        (outputsTagTextIs_logTrace_of_switch (New_switch_fatal_tagText dl opts 0 _))
        (outputsTagTextIs_closeTrace _ _ _))
      (outputsTagTextIs_exitOne _ _)

/-- Witness for C6: concrete all-string input concatenated without separator,
and a concrete line-terminated rendering. -/
theorem C6_witness :
    sprint [GoValue.str "a", GoValue.str "b"] =
      specConcatNoSep [GoValue.str "a", GoValue.str "b"] ∧
    ∃ s, sprintln [GoValue.str "a"] = s ++ "\n" :=
  ⟨(C6_message_bodies Level.Debug [] 0 "" [GoValue.str "a", GoValue.str "b"]).1
      _ (by decide),
   (C6_message_bodies Level.Debug [] 0 "" [GoValue.str "a"]).2.1 _⟩

/-- C7: construction starts from the defaults — minimum severity read from
the process-wide mutable default, format flags date + microsecond time +
short source location — applies the options in order with last-write-wins
for scalar fields, and reads the global default only at construction time:
assigning a new global default after a Logger is built leaves the built
instance, including its filtering behaviour, unchanged. -/
theorem C7_construction (w : LoggerWorld) (opts : List LogOption)
    (o : options) (f : LogOption) (vl : Level) (fl : Nat) (v1 v2 : Level) :
    (newLogger w []).level = w.defaultLevel ∧
    (newLogger w []).debugLog.flags = defaultLogFlags ∧
    defaultLogFlags = Ldate ||| Lmicroseconds ||| Lshortfile ∧
    initialWorld.defaultLevel = Level.Debug ∧
    applyOpts o (opts ++ [f]) = f (applyOpts o opts) ∧
    (applyOpts o (opts ++ [WithLevel vl])).level = vl ∧
    (applyOpts o (opts ++ [WithLogFlags fl])).logFlags = fl ∧
    (buildThenSetDefault w opts v1).1 = newLogger w opts ∧
    (buildThenSetDefault w opts v1).1 = (buildThenSetDefault w opts v2).1 ∧
    (buildThenSetDefault w opts v1).2.defaultLevel = v1 ∧
    (∀ lv d t, ((buildThenSetDefault w opts v1).1).logTrace lv d t =
      (newLogger w opts).logTrace lv d t) := by
  refine ⟨rfl, rfl, rfl, rfl, ?_, ?_, ?_, rfl, rfl, rfl, fun lv d t => rfl⟩
  · unfold applyOpts
    rw [List.foldl_append]
    rfl
  · unfold applyOpts
    rw [List.foldl_append]
    rfl
  · unfold applyOpts
    rw [List.foldl_append]
    rfl

/-- Counterexample to C8 as stated: `Close` does not empty the closables
list — its body assigns no field, so after `Close` on a Logger owning one
closable the list still holds that closable. -/
theorem C8_counterexample :
    ((New Level.Debug
        [WithInfoLogFile { id := 1, closable := true, closeFails := false }]).closePost).closers
      ≠ [] := by decide

/-- C8 (amended): after construction no operation modifies the Logger's
destination writers or its closables list at all — the write path leaves the
Logger unchanged, and `Close` invokes the release operation of every owned
closable but also leaves every field, the closables list included,
unchanged. -/
theorem C8_frame (l : Logger) (lv : Level) (d : Int) (t : String) :
    l.logPost lv d t = l ∧
    l.closePost = l ∧
    (l.closePost).closers = l.closers ∧
    (l.closePost).debugLog = l.debugLog ∧
    (l.closePost).infoLog = l.infoLog ∧
    (l.closePost).warnLog = l.warnLog ∧
    (l.closePost).errorLog = l.errorLog ∧
    (l.closePost).fatalLog = l.fatalLog ∧
    (l.logPost lv d t).closers = l.closers ∧
    (∀ c ∈ l.closers, LogEvent.closeCall c ∈ l.closeTrace) :=
  ⟨rfl, rfl, rfl, rfl, rfl, rfl, rfl, rfl, rfl,
   fun _ hc => List.mem_cons.mpr
     (Or.inr (List.mem_append.mpr (Or.inl (closeCall_mem_closeLoop hc))))⟩

/-- Witness for C8 at a concrete Logger owning one closable. -/
theorem C8_witness :
    ((New Level.Debug
        [WithInfoLogFile { id := 1, closable := true, closeFails := false }]).closePost) =
      New Level.Debug
        [WithInfoLogFile { id := 1, closable := true, closeFails := false }] ∧
    LogEvent.closeCall { id := 1, closable := true, closeFails := false } ∈
      (New Level.Debug
        [WithInfoLogFile { id := 1, closable := true, closeFails := false }]).closeTrace :=
  ⟨(C8_frame (New Level.Debug
      [WithInfoLogFile { id := 1, closable := true, closeFails := false }])
      Level.Debug 0 "x").2.1,
   (C8_frame (New Level.Debug
      [WithInfoLogFile { id := 1, closable := true, closeFails := false }])
      Level.Debug 0 "x").2.2.2.2.2.2.2.2.2 _ (by decide)⟩

/-- An abstract call stack as `runtime.Caller` sees it from inside
`log.Logger.Output`: frame 0 is `Output` itself, frame 1 is `Logger.log`
(which calls `Output`), frame 2 is the public entry method (`Debug`,
`InfoDepth`, ...), frames 3 .. 2+D are the caller's own wrapper helpers, and
the next frame is the true call site.  Modelled from the call chain of
`logger.go`: entry method → `log` → `Output`. -/
def callStack (wrappers : List String) (caller : String) : List String :=
  ["log.Logger.Output", "Logger.log", "Logger.entry"] ++ wrappers ++ [caller]

/-- Go `runtime.Caller(cd)` as invoked by `log.Logger.Output`: the frame
`cd` levels above `Output`, if any. -/
def reportedFrame (stack : List String) (cd : Int) : Option String :=
  if cd < 0 then none else stack[cd.toNat]?

lemma outputsDepthIs_closeTrace (l : Logger) (cd : Int) :
    outputsDepthIs l.closeTrace cd := by
  intro e he d c tg tx heq
  exact absurd heq (closeTrace_no_output l e he d c tg tx)

lemma outputsDepthIs_exitOne (cd : Int) :
    outputsDepthIs [LogEvent.exit 1] cd := by
  intro e he d c tg tx heq
  rcases List.mem_singleton.mp he with rfl
  cases heq

lemma outputsDepthIs_logTrace3 (l : Logger) (lv : Level) (t : String) :
    outputsDepthIs (l.logTrace lv 0 t) 3 := by
  have h := outputsDepthIs_logTrace l lv 0 t
  rwa [add_zero] at h

lemma outputsDepthIs_fatalTrace (l : Logger) (d : Int) (t : String) :
    outputsDepthIs (l.logTrace Level.Fatal d t ++ l.closeTrace ++ [LogEvent.exit 1])
      (3 + d) :=
  outputsDepthIs_append
    (outputsDepthIs_append (outputsDepthIs_logTrace l Level.Fatal d t)
      (outputsDepthIs_closeTrace l (3 + d)))
    (outputsDepthIs_exitOne (3 + d))

lemma outputsDepthIs_fatalTrace3 (l : Logger) (t : String) :
    outputsDepthIs (l.logTrace Level.Fatal 0 t ++ l.closeTrace ++ [LogEvent.exit 1]) 3 := by
  have h := outputsDepthIs_fatalTrace l 0 t
  rwa [add_zero] at h

/-- The depth-adjusted read of the abstract stack: offset base 3 plus the
number of wrapper frames lands exactly on the true call site. -/
lemma reportedFrame_callStack (ws : List String) (caller : String) :
    reportedFrame (callStack ws caller) (3 + (ws.length : Int)) = some caller := by
  unfold reportedFrame callStack
  rw [if_neg (by omega : ¬ (3 + (ws.length : Int) < 0))]
  rw [(by omega : (3 + (ws.length : Int)).toNat = 3 + ws.length)]
  have hlen : (["log.Logger.Output", "Logger.log", "Logger.entry"] ++ ws).length =
      3 + ws.length := by
    simp only [List.length_append, List.length_cons, List.length_nil]
  rw [List.getElem?_append_right (by rw [hlen])]
  rw [hlen, (by omega : 3 + ws.length - (3 + ws.length) = 0)]
  rfl

/-- C9: the caller-location stack offset passed to the underlying writer is
a fixed base of 3 (entry method → `log` → `Output`) plus the caller-supplied
extra depth — the plain, line-terminated and formatted variants pass extra
depth 0 and the explicit-depth variants add their depth argument — so on the
abstract call chain a depth-adjusted call made through D wrapper frames
reports the original caller's frame. -/
theorem C9_caller_depth (l : Logger) (depth : Int) (format : String)
    (v : List GoValue) (ws : List String) (caller : String) :
    (∀ lv d t, outputsDepthIs (l.logTrace lv d t) (3 + d)) ∧
    outputsDepthIs (l.Debug v) 3 ∧
    outputsDepthIs (l.DebugDepth depth v) (3 + depth) ∧
    outputsDepthIs (l.Debugln v) 3 ∧
    outputsDepthIs (l.Debugf format v) 3 ∧
    outputsDepthIs (l.Info v) 3 ∧
    outputsDepthIs (l.InfoDepth depth v) (3 + depth) ∧
    outputsDepthIs (l.Infoln v) 3 ∧
    outputsDepthIs (l.Infof format v) 3 ∧
    outputsDepthIs (l.Warn v) 3 ∧
    outputsDepthIs (l.WarnDepth depth v) (3 + depth) ∧
    outputsDepthIs (l.Warnln v) 3 ∧
    outputsDepthIs (l.Warnf format v) 3 ∧
    outputsDepthIs (l.Error v) 3 ∧
    outputsDepthIs (l.ErrorDepth depth v) (3 + depth) ∧
    outputsDepthIs (l.Errorln v) 3 ∧
    outputsDepthIs (l.Errorf format v) 3 ∧
    outputsDepthIs (l.Fatal v) 3 ∧
    outputsDepthIs (l.FatalDepth depth v) (3 + depth) ∧
    outputsDepthIs (l.Fatalln v) 3 ∧
    outputsDepthIs (l.Fatalf format v) 3 ∧
    reportedFrame (callStack ws caller) (3 + (ws.length : Int)) = some caller :=
  ⟨fun lv d t => outputsDepthIs_logTrace l lv d t,
   outputsDepthIs_logTrace3 l Level.Debug (sprint v),
   outputsDepthIs_logTrace l Level.Debug depth (sprint v),
   outputsDepthIs_logTrace3 l Level.Debug (sprintln v),
   outputsDepthIs_logTrace3 l Level.Debug (sprintf format v),
   outputsDepthIs_logTrace3 l Level.Info (sprint v),
   outputsDepthIs_logTrace l Level.Info depth (sprint v),
   outputsDepthIs_logTrace3 l Level.Info (sprintln v),
   outputsDepthIs_logTrace3 l Level.Info (sprintf format v),
   outputsDepthIs_logTrace3 l Level.Warn (sprint v),
   outputsDepthIs_logTrace l Level.Warn depth (sprint v),
   outputsDepthIs_logTrace3 l Level.Warn (sprintln v),
   outputsDepthIs_logTrace3 l Level.Warn (sprintf format v),
   outputsDepthIs_logTrace3 l Level.Error (sprint v),
   outputsDepthIs_logTrace l Level.Error depth (sprint v),
   outputsDepthIs_logTrace3 l Level.Error (sprintln v),
   outputsDepthIs_logTrace3 l Level.Error (sprintf format v),
   outputsDepthIs_fatalTrace3 l (sprint v),
   outputsDepthIs_fatalTrace l depth (sprint v),
   outputsDepthIs_fatalTrace3 l (sprintln v),
   outputsDepthIs_fatalTrace3 l (sprintf format v),
   reportedFrame_callStack ws caller⟩

/-- C10: every Fatal variant performs the full `Close` release path and
exits with status 1 even when the Fatal message itself is suppressed by the
threshold check (a configured minimum numerically above the Fatal level):
the trace is then exactly the close path followed by the exit, with nothing
written to any destination. -/
theorem C10_fatal_unconditional (l : Logger) (depth : Int) (format : String)
    (v : List GoValue) (h : Level.Fatal < l.level) :
    l.Fatal v = l.closeTrace ++ [LogEvent.exit 1] ∧
    l.FatalDepth depth v = l.closeTrace ++ [LogEvent.exit 1] ∧
    l.Fatalln v = l.closeTrace ++ [LogEvent.exit 1] ∧
    l.Fatalf format v = l.closeTrace ++ [LogEvent.exit 1] ∧
    outputEventsOf (l.Fatal v) = [] ∧
    (∀ c ∈ l.closers, LogEvent.closeCall c ∈ l.Fatal v) ∧
    (l.Fatal v).getLast? = some (LogEvent.exit 1) := by
  have hlt : ∀ d t, l.logTrace Level.Fatal d t = [] := by
    intro d t
    unfold Logger.logTrace
    rw [if_pos h]
  have hfatal : l.Fatal v = l.closeTrace ++ [LogEvent.exit 1] := by
    unfold Logger.Fatal
    rw [hlt]
    rfl
  refine ⟨hfatal, ?_, ?_, ?_, ?_, ?_, ?_⟩
  · unfold Logger.FatalDepth
    rw [hlt]
    rfl
  · unfold Logger.Fatalln
    rw [hlt]
    rfl
  · unfold Logger.Fatalf
    rw [hlt]
    rfl
  · rw [hfatal]
    unfold outputEventsOf
    rw [List.filter_append]
    have h1 := outputEventsOf_closeTrace l
    unfold outputEventsOf at h1
    rw [h1]
    rfl
  · intro c hc
    rw [hfatal]
    exact List.mem_append.mpr (Or.inl (List.mem_cons.mpr
      (Or.inr (List.mem_append.mpr (Or.inl (closeCall_mem_closeLoop hc))))))
  · rw [hfatal, List.getLast?_concat]

/-- Witness for C10: a Logger whose configured minimum, 5, lies above the
Fatal level, so the Fatal write is suppressed yet `Close` runs and the
process exits. -/
theorem C10_witness :
    Level.Fatal < (New Level.Debug [WithLevel 5]).level ∧
    (New Level.Debug [WithLevel 5]).Fatal [GoValue.str "m"] =
      (New Level.Debug [WithLevel 5]).closeTrace ++ [LogEvent.exit 1] ∧
    outputEventsOf ((New Level.Debug [WithLevel 5]).Fatal [GoValue.str "m"]) = [] :=
  ⟨by decide,
   (C10_fatal_unconditional (New Level.Debug [WithLevel 5]) 0 "f"
      [GoValue.str "m"] (by decide)).1,
   (C10_fatal_unconditional (New Level.Debug [WithLevel 5]) 0 "f"
      [GoValue.str "m"] (by decide)).2.2.2.2.1⟩
